import Mathlib

/-!
Verification of the RBAC permission layer of the insurance-claims backend
(`backend/claims/permissions.py`).

The module is a set of Django REST Framework permission classes; each class
carries one pure boolean decision over the incoming request (and, for the
object-scoped check, the target object).  We embed the runtime facts the code
relies on:

* `request.user` is either Django's `AnonymousUser` (its `is_authenticated`
  is `False` and it carries no `profile` attribute) or a stored `User` model
  instance (`is_authenticated` is `True`); two model instances compare equal
  exactly when they have the same primary key, and `AnonymousUser` never
  compares equal to a stored model instance.
* `rest_framework.permissions.SAFE_METHODS` is `("GET", "HEAD", "OPTIONS")`.
* `getattr(user, 'profile', None)` yields the attached profile or `None`.

Ownership relations on domain objects (`claimant`, `holder`, `user`) are
Django foreign keys: each is either absent from the object type or holds a
stored user record.  An attribute that is present but `NULL` behaves, for
these decisions, exactly like an absent one (`None == request.user` is
`False`), so both are embedded as `Option.none`.
-/

namespace ClaimsRBAC

/-- The closed role enumeration from the module docstring. -/
inductive Role
  | admin
  | manager
  | adjuster
  | reviewer
  | agent
  | customer
deriving DecidableEq, Repr

/-- A user profile; the only field the permission code reads is `role`. -/
structure Profile where
  role : Role
deriving DecidableEq, Repr

/-- A stored `User` model row: a primary key plus an optional profile
(`getattr(user, 'profile', None)`). -/
structure UserModel where
  pk : Nat
  profile : Option Profile
deriving DecidableEq, Repr

/-- `request.user`: Django's `AnonymousUser`, or a stored user instance. -/
inductive ReqUser
  | anonymous
  | authUser (u : UserModel)
deriving DecidableEq, Repr

/-- `user.is_authenticated`: `False` on `AnonymousUser`, `True` on a stored
user model instance. -/
def is_authenticated : ReqUser → Bool
  | .anonymous => false
  | .authUser _ => true

/-- Django model equality against `request.user`: model instances of the same
class are equal iff their primary keys are equal, and a model instance never
equals `AnonymousUser`. -/
def modelEq (a : UserModel) : ReqUser → Bool
  | .anonymous => false
  | .authUser u => a.pk == u.pk

/-- `STAFF_ROLES = ('admin', 'manager', 'adjuster', 'reviewer', 'agent')`. -/
def STAFF_ROLES : List Role := [.admin, .manager, .adjuster, .reviewer, .agent]

/-- `MANAGEMENT_ROLES = ('admin', 'manager')`. -/
def MANAGEMENT_ROLES : List Role := [.admin, .manager]

/-- `PROCESSING_ROLES = ('admin', 'manager', 'adjuster')`. -/
def PROCESSING_ROLES : List Role := [.admin, .manager, .adjuster]

/-- `OVERSIGHT_ROLES = ('admin', 'manager', 'reviewer')`. -/
def OVERSIGHT_ROLES : List Role := [.admin, .manager, .reviewer]

/-- `SAFE_METHODS` from `rest_framework.permissions`. -/
def SAFE_METHODS : List String := ["GET", "HEAD", "OPTIONS"]

/-- `_get_role(user)`: the profile's role, defaulting to `'customer'` when the
profile is absent (`AnonymousUser` carries no `profile` attribute at all). -/
def _get_role : ReqUser → Role
  | .anonymous => .customer
  | .authUser u =>
    match u.profile with
    | some p => p.role
    | none => .customer

/-- The slice of the HTTP request the permission code reads: the caller and
the request method. -/
structure Request where
  user : ReqUser
  method : String
deriving DecidableEq, Repr

/-- A target domain object for the object-scoped check.  Each ownership
relation is a foreign key to a stored user, `none` when the object type lacks
the attribute (or the key is `NULL`, which decides identically). -/
structure TargetObj where
  claimant : Option UserModel
  holder : Option UserModel
  user : Option UserModel
deriving DecidableEq, Repr

/-- One `hasattr(obj, rel) and getattr(obj, rel) == request.user` probe. -/
def relMatches (v : Option UserModel) (ru : ReqUser) : Bool :=
  match v with
  | some m => modelEq m ru
  | none => false

/-- `IsAdmin.has_permission`. -/
def IsAdmin (request : Request) : Bool :=
  is_authenticated request.user && (_get_role request.user == .admin)

/-- `IsManagement.has_permission`. -/
def IsManagement (request : Request) : Bool :=
  is_authenticated request.user && MANAGEMENT_ROLES.contains (_get_role request.user)

/-- `IsStaff.has_permission`. -/
def IsStaff (request : Request) : Bool :=
  is_authenticated request.user && STAFF_ROLES.contains (_get_role request.user)

/-- `IsStaffOrReadOnly.has_permission`. -/
def IsStaffOrReadOnly (request : Request) : Bool :=
  if !(is_authenticated request.user) then false
  else if SAFE_METHODS.contains request.method then true
  else STAFF_ROLES.contains (_get_role request.user)

/-- `IsOwnerOrStaff.has_object_permission` (note: the source performs no
authentication check here; it resolves the role and probes the three
ownership relations in order). -/
def IsOwnerOrStaff (request : Request) (obj : TargetObj) : Bool :=
  let role := _get_role request.user
  if STAFF_ROLES.contains role then true
  else if relMatches obj.claimant request.user then true
  else if relMatches obj.holder request.user then true
  else if relMatches obj.user request.user then true
  else false

/-- `CanProcessClaims.has_permission`. -/
def CanProcessClaims (request : Request) : Bool :=
  is_authenticated request.user && PROCESSING_ROLES.contains (_get_role request.user)

/-- `CanAssignClaims.has_permission`. -/
def CanAssignClaims (request : Request) : Bool :=
  is_authenticated request.user && MANAGEMENT_ROLES.contains (_get_role request.user)

/-- `CanManageFraudAlerts.has_permission`. -/
def CanManageFraudAlerts (request : Request) : Bool :=
  if !(is_authenticated request.user) then false
  else
    let role := _get_role request.user
    if SAFE_METHODS.contains request.method then
      [Role.admin, .manager, .adjuster, .reviewer].contains role
    else
      [Role.admin, .manager, .adjuster].contains role

/-- `CanViewAnalytics.has_permission`. -/
def CanViewAnalytics (request : Request) : Bool :=
  is_authenticated request.user && OVERSIGHT_ROLES.contains (_get_role request.user)

/-- `CanManageUsers.has_permission`. -/
def CanManageUsers (request : Request) : Bool :=
  is_authenticated request.user && MANAGEMENT_ROLES.contains (_get_role request.user)

/-- Names of the ten exposed decisions, to quantify over all of them. -/
inductive DecisionName
  | isAdmin
  | isManagement
  | isStaff
  | isStaffOrReadOnly
  | isOwnerOrStaff
  | canProcessClaims
  | canAssignClaims
  | canManageFraudAlerts
  | canViewAnalytics
  | canManageUsers
deriving DecidableEq, Repr

/-- Uniform view of all ten decisions.  Request-level decisions ignore the
target object; the object-scoped decision consults it. -/
def evalDecision : DecisionName → Request → TargetObj → Bool
  | .isAdmin, r, _ => IsAdmin r
  | .isManagement, r, _ => IsManagement r
  | .isStaff, r, _ => IsStaff r
  | .isStaffOrReadOnly, r, _ => IsStaffOrReadOnly r
  | .isOwnerOrStaff, r, o => IsOwnerOrStaff r o
  | .canProcessClaims, r, _ => CanProcessClaims r
  | .canAssignClaims, r, _ => CanAssignClaims r
  | .canManageFraudAlerts, r, _ => CanManageFraudAlerts r
  | .canViewAnalytics, r, _ => CanViewAnalytics r
  | .canManageUsers, r, _ => CanManageUsers r

/-! ### Shared helper lemmas -/

/-- An ownership probe never matches `AnonymousUser`. -/
theorem relMatches_anonymous (v : Option UserModel) :
    relMatches v ReqUser.anonymous = false := by
  cases v <;> rfl

/-- An ownership probe succeeds exactly when the relation is present and its
value equals the caller. -/
theorem relMatches_iff (v : Option UserModel) (ru : ReqUser) :
    relMatches v ru = true ↔ ∃ m, v = some m ∧ modelEq m ru = true := by
  cases v <;> simp [relMatches]

/-- Against a stored user, an ownership probe is a primary-key comparison. -/
theorem relMatches_authUser (v : Option UserModel) (u : UserModel) :
    relMatches v (ReqUser.authUser u) = v.any fun m => m.pk == u.pk := by
  cases v <;> simp [relMatches, modelEq]

/-- Every decision denies an unauthenticated caller. -/
theorem evalDecision_unauth (d : DecisionName) (r : Request) (o : TargetObj)
    (h : is_authenticated r.user = false) : evalDecision d r o = false := by
  obtain ⟨u, m⟩ := r
  cases u with
  | authUser u => simp [is_authenticated] at h
  | anonymous =>
    cases d <;>
      simp [evalDecision, IsAdmin, IsManagement, IsStaff, IsStaffOrReadOnly,
        IsOwnerOrStaff, CanProcessClaims, CanAssignClaims, CanManageFraudAlerts,
        CanViewAnalytics, CanManageUsers, is_authenticated, _get_role,
        relMatches_anonymous, STAFF_ROLES]

/-- The object-scoped check is the disjunction of the staff test and the three
ownership probes, in source order. -/
theorem isOwnerOrStaff_eq_or (r : Request) (o : TargetObj) :
    IsOwnerOrStaff r o =
      (STAFF_ROLES.contains (_get_role r.user) || relMatches o.claimant r.user ||
       relMatches o.holder r.user || relMatches o.user r.user) := by
  cases hs : STAFF_ROLES.contains (_get_role r.user) <;>
  cases hc : relMatches o.claimant r.user <;>
  cases hh : relMatches o.holder r.user <;>
  cases hu : relMatches o.user r.user <;>
  simp [IsOwnerOrStaff, hs, hc, hh, hu] <;>
  simpa using hs

/-- Every decision allows an authenticated caller whose resolved role is
`admin`, for any method and any target object. -/
theorem evalDecision_admin (d : DecisionName) (r : Request) (o : TargetObj)
    (hauth : is_authenticated r.user = true) (hrole : _get_role r.user = Role.admin) :
    evalDecision d r o = true := by
  cases d <;>
    simp [evalDecision, IsAdmin, IsManagement, IsStaff, IsStaffOrReadOnly,
      IsOwnerOrStaff, CanProcessClaims, CanAssignClaims, CanManageFraudAlerts,
      CanViewAnalytics, CanManageUsers, hauth, hrole, STAFF_ROLES,
      MANAGEMENT_ROLES, PROCESSING_ROLES, OVERSIGHT_ROLES]

/-! ### Claim theorems -/

/-- C1: for every named decision, every operation and every target object, an
unauthenticated principal is denied (the decision returns `false`). -/
theorem unauthenticated_always_denies (d : DecisionName) (r : Request)
    (o : TargetObj) (h : is_authenticated r.user = false) :
    evalDecision d r o = false :=
  evalDecision_unauth d r o h

/-- Witness for C1: the object-scoped decision denies `AnonymousUser` even on
an object whose `claimant` relation is populated. -/
theorem unauthenticated_always_denies_witness :
    evalDecision DecisionName.isOwnerOrStaff ⟨ReqUser.anonymous, "POST"⟩
      ⟨some ⟨1, none⟩, none, none⟩ = false :=
  unauthenticated_always_denies DecisionName.isOwnerOrStaff
    ⟨ReqUser.anonymous, "POST"⟩ ⟨some ⟨1, none⟩, none, none⟩ rfl

/-- C2: `isOwnerOrStaff(p, o)` is true iff the resolved role is in STAFF, or
some ownership relation among `claimant`, `holder`, `user` is exposed by `o`
and its value equals `p`. -/
theorem isOwnerOrStaff_iff (r : Request) (o : TargetObj) :
    IsOwnerOrStaff r o = true ↔
      _get_role r.user ∈ STAFF_ROLES ∨
      (∃ m, o.claimant = some m ∧ modelEq m r.user = true) ∨
      (∃ m, o.holder = some m ∧ modelEq m r.user = true) ∨
      (∃ m, o.user = some m ∧ modelEq m r.user = true) := by
  rw [isOwnerOrStaff_eq_or]
  simp [relMatches_iff, or_assoc]

/-- C3: for an authenticated principal, `canManageFraudAlerts` allows a
read-only operation iff the role is admin, manager, adjuster or reviewer, and
a mutating operation iff the role is admin, manager or adjuster. -/
theorem canManageFraudAlerts_spec (r : Request)
    (hauth : is_authenticated r.user = true) :
    (SAFE_METHODS.contains r.method = true →
      (CanManageFraudAlerts r = true ↔
        _get_role r.user ∈ [Role.admin, .manager, .adjuster, .reviewer])) ∧
    (SAFE_METHODS.contains r.method = false →
      (CanManageFraudAlerts r = true ↔
        _get_role r.user ∈ [Role.admin, .manager, .adjuster])) := by
  refine ⟨fun hm => ?_, fun hm => ?_⟩
  · have hmem : r.method ∈ SAFE_METHODS := by simpa using hm
    simp [CanManageFraudAlerts, hauth, hmem]
  · have hmem : r.method ∉ SAFE_METHODS := by simpa using hm
    simp [CanManageFraudAlerts, hauth, hmem]

/-- Witness for C3: a reviewer may view fraud alerts (safe method `GET`). -/
theorem canManageFraudAlerts_spec_witness :
    CanManageFraudAlerts ⟨ReqUser.authUser ⟨1, some ⟨Role.reviewer⟩⟩, "GET"⟩ = true :=
  ((canManageFraudAlerts_spec ⟨ReqUser.authUser ⟨1, some ⟨Role.reviewer⟩⟩, "GET"⟩
    (by decide)).1 (by decide)).mpr (by decide)

/-- C4: for an authenticated principal, `isStaffOrReadOnly` allows every
read-only operation, and allows a mutating operation iff the role is in
STAFF. -/
theorem isStaffOrReadOnly_spec (r : Request)
    (hauth : is_authenticated r.user = true) :
    (SAFE_METHODS.contains r.method = true → IsStaffOrReadOnly r = true) ∧
    (SAFE_METHODS.contains r.method = false →
      (IsStaffOrReadOnly r = true ↔ _get_role r.user ∈ STAFF_ROLES)) := by
  refine ⟨fun hm => ?_, fun hm => ?_⟩
  · have hmem : r.method ∈ SAFE_METHODS := by simpa using hm
    simp [IsStaffOrReadOnly, hauth, hmem]
  · have hmem : r.method ∉ SAFE_METHODS := by simpa using hm
    simp [IsStaffOrReadOnly, hauth, hmem]

/-- Witness for C4: an agent (staff) may perform a mutating operation. -/
theorem isStaffOrReadOnly_spec_witness :
    IsStaffOrReadOnly ⟨ReqUser.authUser ⟨2, some ⟨Role.agent⟩⟩, "POST"⟩ = true :=
  ((isStaffOrReadOnly_spec ⟨ReqUser.authUser ⟨2, some ⟨Role.agent⟩⟩, "POST"⟩
    (by decide)).2 (by decide)).mpr (by decide)

/-- C5: for an authenticated principal, independent of the operation:
`isStaff` iff role ∈ {admin, manager, adjuster, reviewer, agent};
`isManagement` iff role ∈ {admin, manager}; `canProcessClaims` iff
role ∈ {admin, manager, adjuster}; `canViewAnalytics` iff
role ∈ {admin, manager, reviewer}. -/
theorem role_only_decisions_spec (r : Request)
    (hauth : is_authenticated r.user = true) :
    (IsStaff r = true ↔
      _get_role r.user ∈ [Role.admin, .manager, .adjuster, .reviewer, .agent]) ∧
    (IsManagement r = true ↔ _get_role r.user ∈ [Role.admin, .manager]) ∧
    (CanProcessClaims r = true ↔
      _get_role r.user ∈ [Role.admin, .manager, .adjuster]) ∧
    (CanViewAnalytics r = true ↔
      _get_role r.user ∈ [Role.admin, .manager, .reviewer]) := by
  simp [IsStaff, IsManagement, CanProcessClaims, CanViewAnalytics, hauth,
    STAFF_ROLES, MANAGEMENT_ROLES, PROCESSING_ROLES, OVERSIGHT_ROLES]

/-- Witness for C5: an adjuster is staff. -/
theorem role_only_decisions_spec_witness :
    IsStaff ⟨ReqUser.authUser ⟨3, some ⟨Role.adjuster⟩⟩, "GET"⟩ = true :=
  ((role_only_decisions_spec ⟨ReqUser.authUser ⟨3, some ⟨Role.adjuster⟩⟩, "GET"⟩
    (by decide)).1).mpr (by decide)

/-- C6: role resolution is total and defaults to `customer`: a principal
without a role attribute resolves to `customer`, and decides identically to a
principal with an explicit `customer` role in every named decision, for every
method and target object. -/
theorem default_role_behaves_as_customer (u : UserModel) (d : DecisionName)
    (m : String) (o : TargetObj) (h : u.profile = none) :
    _get_role (ReqUser.authUser u) = Role.customer ∧
    evalDecision d ⟨ReqUser.authUser u, m⟩ o =
      evalDecision d ⟨ReqUser.authUser ⟨u.pk, some ⟨Role.customer⟩⟩, m⟩ o := by
  refine ⟨by simp [_get_role, h], ?_⟩
  cases d <;>
    simp [evalDecision, IsAdmin, IsManagement, IsStaff, IsStaffOrReadOnly,
      IsOwnerOrStaff, CanProcessClaims, CanAssignClaims, CanManageFraudAlerts,
      CanViewAnalytics, CanManageUsers, is_authenticated, _get_role, h,
      relMatches_authUser]

/-- Witness for C6: a profile-less user decides `isStaff` exactly like an
explicit customer. -/
theorem default_role_behaves_as_customer_witness :
    _get_role (ReqUser.authUser ⟨5, none⟩) = Role.customer ∧
    evalDecision DecisionName.isStaff ⟨ReqUser.authUser ⟨5, none⟩, "GET"⟩
        ⟨none, none, none⟩ =
      evalDecision DecisionName.isStaff
        ⟨ReqUser.authUser ⟨5, some ⟨Role.customer⟩⟩, "GET"⟩ ⟨none, none, none⟩ :=
  default_role_behaves_as_customer ⟨5, none⟩ DecisionName.isStaff "GET"
    ⟨none, none, none⟩ rfl

/-- C7: every decision is deterministic: identical inputs (same principal and
method, same target object) yield identical booleans.  Purity holds by
construction: each decision is embedded as a total function of exactly these
inputs and the fixed role-group constants. -/
theorem decisions_deterministic (d : DecisionName) (r₁ r₂ : Request)
    (o₁ o₂ : TargetObj) (hr : r₁ = r₂) (ho : o₁ = o₂) :
    evalDecision d r₁ o₁ = evalDecision d r₂ o₂ := by
  rw [hr, ho]

/-- Witness for C7: two identical fraud-alert invocations agree. -/
theorem decisions_deterministic_witness :
    evalDecision DecisionName.canManageFraudAlerts
        ⟨ReqUser.authUser ⟨4, some ⟨Role.adjuster⟩⟩, "PATCH"⟩ ⟨none, none, none⟩ =
      evalDecision DecisionName.canManageFraudAlerts
        ⟨ReqUser.authUser ⟨4, some ⟨Role.adjuster⟩⟩, "PATCH"⟩ ⟨none, none, none⟩ :=
  decisions_deterministic DecisionName.canManageFraudAlerts
    ⟨ReqUser.authUser ⟨4, some ⟨Role.adjuster⟩⟩, "PATCH"⟩
    ⟨ReqUser.authUser ⟨4, some ⟨Role.adjuster⟩⟩, "PATCH"⟩
    ⟨none, none, none⟩ ⟨none, none, none⟩ rfl rfl

/-- C8: every decision is total and boolean-valued, and each failure category
folds into `false`: unauthenticated callers; and an under-privileged
(`customer`) caller on a mutating operation whose target matches no ownership
relation, for every decision. -/
theorem decisions_total_and_deny (d : DecisionName) (r : Request)
    (o : TargetObj) :
    (evalDecision d r o = true ∨ evalDecision d r o = false) ∧
    (is_authenticated r.user = false → evalDecision d r o = false) ∧
    (_get_role r.user = Role.customer →
      SAFE_METHODS.contains r.method = false →
      relMatches o.claimant r.user = false →
      relMatches o.holder r.user = false →
      relMatches o.user r.user = false →
      evalDecision d r o = false) := by
  refine ⟨?_, evalDecision_unauth d r o, ?_⟩
  · cases evalDecision d r o
    · exact Or.inr rfl
    · exact Or.inl rfl
  · intro hrole hm hc hh hu
    have hmem : r.method ∉ SAFE_METHODS := by simpa using hm
    cases d <;>
      simp [evalDecision, IsAdmin, IsManagement, IsStaff, IsStaffOrReadOnly,
        IsOwnerOrStaff, CanProcessClaims, CanAssignClaims, CanManageFraudAlerts,
        CanViewAnalytics, CanManageUsers, hrole, hmem, hc, hh, hu,
        STAFF_ROLES, MANAGEMENT_ROLES, PROCESSING_ROLES, OVERSIGHT_ROLES]

/-- Witness for C8 at a concrete input: an authenticated customer issuing
`POST` against an unrelated object. -/
theorem decisions_total_and_deny_witness :
    (evalDecision DecisionName.isOwnerOrStaff
        ⟨ReqUser.authUser ⟨7, some ⟨Role.customer⟩⟩, "POST"⟩
        ⟨some ⟨8, none⟩, none, none⟩ = true ∨
      evalDecision DecisionName.isOwnerOrStaff
        ⟨ReqUser.authUser ⟨7, some ⟨Role.customer⟩⟩, "POST"⟩
        ⟨some ⟨8, none⟩, none, none⟩ = false) ∧
    (is_authenticated (ReqUser.authUser ⟨7, some ⟨Role.customer⟩⟩) = false →
      evalDecision DecisionName.isOwnerOrStaff
        ⟨ReqUser.authUser ⟨7, some ⟨Role.customer⟩⟩, "POST"⟩
        ⟨some ⟨8, none⟩, none, none⟩ = false) ∧
    (_get_role (ReqUser.authUser ⟨7, some ⟨Role.customer⟩⟩) = Role.customer →
      SAFE_METHODS.contains "POST" = false →
      relMatches (some ⟨8, none⟩) (ReqUser.authUser ⟨7, some ⟨Role.customer⟩⟩) = false →
      relMatches none (ReqUser.authUser ⟨7, some ⟨Role.customer⟩⟩) = false →
      relMatches none (ReqUser.authUser ⟨7, some ⟨Role.customer⟩⟩) = false →
      evalDecision DecisionName.isOwnerOrStaff
        ⟨ReqUser.authUser ⟨7, some ⟨Role.customer⟩⟩, "POST"⟩
        ⟨some ⟨8, none⟩, none, none⟩ = false) :=
  decisions_total_and_deny DecisionName.isOwnerOrStaff
    ⟨ReqUser.authUser ⟨7, some ⟨Role.customer⟩⟩, "POST"⟩
    ⟨some ⟨8, none⟩, none, none⟩

/-- C9: admin dominance: an authenticated principal whose resolved role is
`admin` is allowed by every decision, for every method and target object. -/
theorem admin_always_allowed (d : DecisionName) (r : Request) (o : TargetObj)
    (hauth : is_authenticated r.user = true)
    (hrole : _get_role r.user = Role.admin) :
    evalDecision d r o = true :=
  evalDecision_admin d r o hauth hrole

/-- Witness for C9: an admin may manage users with a mutating method. -/
theorem admin_always_allowed_witness :
    evalDecision DecisionName.canManageUsers
      ⟨ReqUser.authUser ⟨1, some ⟨Role.admin⟩⟩, "DELETE"⟩ ⟨none, none, none⟩ = true :=
  admin_always_allowed DecisionName.canManageUsers
    ⟨ReqUser.authUser ⟨1, some ⟨Role.admin⟩⟩, "DELETE"⟩ ⟨none, none, none⟩
    (by decide) (by decide)

/-- C10: `isManagement`, `canAssignClaims` and `canManageUsers` are
extensionally equal, and each is the conjunction of authentication with
membership of the resolved role in {admin, manager}. -/
theorem management_decisions_coincide (r : Request) :
    IsManagement r = CanAssignClaims r ∧
    CanAssignClaims r = CanManageUsers r ∧
    IsManagement r =
      (is_authenticated r.user &&
        [Role.admin, Role.manager].contains (_get_role r.user)) :=
  ⟨rfl, rfl, rfl⟩

end ClaimsRBAC
